import Mathlib

/-!
Shallow embedding of the outcome algebra of the kanzen repository: the
synchronous `Result` type, the asynchronous `ResultAsync` wrapper
(`src/packages/result/src/result/async/result-async.ts`), and the
`safeTry` safe-call adapter.  A JavaScript promise is modelled by its
settled state: `Except F a` is a promise that is either fulfilled with
a value or rejected with a fault of type `F`.  The untyped rejection
channel of the host is given the explicit type `F`; where two distinct
fault sources meet on one channel, a sum type keeps them apart.  A
callback that may throw is modelled with an `Except F` codomain: the
`Except.error` case is the raised fault, exactly where the host would
reject the derived promise.
-/

/-- A settled JavaScript promise: fulfilled (`Except.ok`) with a value of
type `a`, or rejected (`Except.error`) with a fault of type `F`. -/
abbrev JSPromise (F a : Type) : Type := Except F a

/-- The single-callback form of Promise.prototype.then, as used inside the
ResultAsync methods (`this._promise.then(res => ...)`).  The callback may
itself throw (the `Except.error` case of its codomain) or return a promise
(flattened by the host); a rejection of the receiver passes through. -/
def Except.then' {F a b : Type} (p : JSPromise F a) (okFn : a → JSPromise F b) :
    JSPromise F b :=
  match p with
  | .error f => .error f
  | .ok x => okFn x

/-- The two-callback form of Promise.prototype.then, as used by
`ResultAsync.then(okFn, errFn)`. -/
def Except.then2 {F a b : Type} (p : JSPromise F a) (okFn : a → JSPromise F b)
    (errFn : F → JSPromise F b) : JSPromise F b :=
  match p with
  | .error f => errFn f
  | .ok x => okFn x

/-- Promise.prototype.catch, as used by `safeTry`: a fulfilled receiver
passes through, a rejection is handed to the callback. -/
def Except.catch' {F a : Type} (p : JSPromise F a) (errFn : F → JSPromise F a) :
    JSPromise F a :=
  match p with
  | .error f => errFn f
  | .ok x => .ok x

namespace Kanzen

/-- Modelled from the spec: the synchronous `Result` type of
`result-sync.ts`, which is not under `src/` (only its type helpers,
tests and documentation are).  Spec section 3: a closed union of exactly
two variants, `Success(value)` and `Failure(error)`.  The constructors
carry the names of the constructor functions `okSync` / `errSync` used
throughout the sources. -/
inductive Result (O E : Type) where
  | okSync (value : O)
  | errSync (error : E)

/-- Modelled from the spec: `isOk()` is a pure predicate, true exactly on
the Success variant. -/
def Result.isOk {O E : Type} : Result O E → Bool
  | .okSync _ => true
  | .errSync _ => false

/-- Modelled from the spec: `isErr()` is a pure predicate, true exactly on
the Failure variant. -/
def Result.isErr {O E : Type} : Result O E → Bool
  | .okSync _ => false
  | .errSync _ => true

/-- Modelled from the spec: `unwrap()` returns the success payload, and on
a Failure raises the terminal-unwrap fault carrying the original failure
payload (the library documentation and tests show the thrown value is the
payload itself).  The raise is the `Except.error` case. -/
def Result.unwrap {O E : Type} : Result O E → Except E O
  | .okSync v => .ok v
  | .errSync e => .error e

/-- Modelled from the spec: `unwrapOr(fallback)` returns the success
payload, or the fallback on a Failure; never faults. -/
def Result.unwrapOr {O E : Type} (r : Result O E) (value : O) : O :=
  match r with
  | .okSync v => v
  | .errSync _ => value

/-- Modelled from the spec: `match({ ok, err })` applies exactly one of the
two supplied functions according to the variant and returns its result. -/
def Result.match' {O E X : Type} (r : Result O E) (okFn : O → X) (errFn : E → X) : X :=
  match r with
  | .okSync v => okFn v
  | .errSync e => errFn e

/-- Modelled from the spec: `map(fn)` applies `fn` to the success payload
and rewraps; a Failure receiver is returned unchanged.  A fault raised by
`fn` propagates to the caller uncaught, which the `Except F` threading
makes explicit. -/
def Result.map {O E F TOk : Type} (r : Result O E) (fn : O → Except F TOk) :
    Except F (Result TOk E) :=
  match r with
  | .okSync v => (fn v).then' (fun x => .ok (Result.okSync x))
  | .errSync e => .ok (Result.errSync e)

/-- Modelled from the spec: `mapErr(fn)` is the dual of `map` over the
failure side. -/
def Result.mapErr {O E F TErr : Type} (r : Result O E) (fn : E → Except F TErr) :
    Except F (Result O TErr) :=
  match r with
  | .okSync v => .ok (Result.okSync v)
  | .errSync e => (fn e).then' (fun x => .ok (Result.errSync x))

/-- Modelled from the spec: `andThen(fn)` invokes `fn` on the success
payload and returns the Outcome it produces directly (flattening); a
Failure receiver short-circuits with the same failure payload and `fn` is
never invoked. -/
def Result.andThen {O E F TOk : Type} (r : Result O E)
    (fn : O → Except F (Result TOk E)) : Except F (Result TOk E) :=
  match r with
  | .okSync v => fn v
  | .errSync e => .ok (Result.errSync e)

/-- Modelled from the spec: `orElse(fn)` is the dual of `andThen` over the
failure side; a Success receiver short-circuits with the same payload. -/
def Result.orElse {O E F TErr : Type} (r : Result O E)
    (fn : E → Except F (Result O TErr)) : Except F (Result O TErr) :=
  match r with
  | .okSync v => .ok (Result.okSync v)
  | .errSync e => fn e

/-- Modelled from the spec: `andTee(fn)` invokes `fn` for its side effect
on a Success, discards its result, and returns the receiver unchanged; a
fault raised by `fn` propagates uncaught. -/
def Result.andTee {O E F C : Type} (r : Result O E) (fn : O → Except F C) :
    Except F (Result O E) :=
  match r with
  | .okSync v => (fn v).then' (fun _ => .ok r)
  | .errSync _ => .ok r

/-- Modelled from the spec: `orTee(fn)` is the dual of `andTee` over the
failure side. -/
def Result.orTee {O E F C : Type} (r : Result O E) (fn : E → Except F C) :
    Except F (Result O E) :=
  match r with
  | .okSync _ => .ok r
  | .errSync e => (fn e).then' (fun _ => .ok r)

/-- `ResultAsync<O, E>` from result-async.ts lines 13 to 21: a wrapper
around a single private promise that resolves to a `Result`.  The type
parameter `F` makes the rejection channel of that promise explicit. -/
structure ResultAsync (F O E : Type) where
  _promise : JSPromise F (Result O E)

/-- `ResultAsync.then(okFn, errFn)` from result-async.ts lines 32 to 37:
delegates both callbacks to the wrapped promise (this is the PromiseLike
implementation). -/
def ResultAsync.then' {F O E X : Type} (a : ResultAsync F O E)
    (okFn : Result O E → JSPromise F X) (errFn : F → JSPromise F X) : JSPromise F X :=
  a._promise.then2 okFn errFn

/-- The settled value the host observes when it awaits a `ResultAsync`:
awaiting a PromiseLike calls its `then` with the resume and reject
continuations of the awaiter. -/
def ResultAsync.awaited {F O E : Type} (a : ResultAsync F O E) :
    JSPromise F (Result O E) :=
  a.then' (fun res => .ok res) (fun f => .error f)

/-- `ResultAsync.isOk` from result-async.ts lines 45 to 47. -/
def ResultAsync.isOk {F O E : Type} (a : ResultAsync F O E) : JSPromise F Bool :=
  a._promise.then' (fun res => .ok res.isOk)

/-- `ResultAsync.isErr` from result-async.ts lines 55 to 57. -/
def ResultAsync.isErr {F O E : Type} (a : ResultAsync F O E) : JSPromise F Bool :=
  a._promise.then' (fun res => .ok res.isErr)

/-- `ResultAsync.unwrap` from result-async.ts lines 65 to 67:
`this._promise.then(res => res.unwrap())`.  The derived promise rejects
either because the wrapped promise itself rejected (left summand) or
because the synchronous `unwrap` threw the terminal-unwrap fault carrying
the failure payload (right summand); the sum gives the two sources of the
untyped rejection channel their types. -/
def ResultAsync.unwrap {F O E : Type} (a : ResultAsync F O E) :
    JSPromise (Sum F E) O :=
  match a._promise with
  | .error f => .error (Sum.inl f)
  | .ok res =>
    match res.unwrap with
    | .ok v => .ok v
    | .error e => .error (Sum.inr e)

/-- `ResultAsync.unwrapOr` from result-async.ts lines 76 to 78. -/
def ResultAsync.unwrapOr {F O E : Type} (a : ResultAsync F O E) (value : O) :
    JSPromise F O :=
  a._promise.then' (fun res => .ok (res.unwrapOr value))

/-- `ResultAsync.match` from result-async.ts lines 87 to 92:
`this._promise.then(res => res.match(args))`.  The callbacks are given a
`JSPromise` codomain so that a callback that throws is representable. -/
def ResultAsync.match' {F O E X : Type} (a : ResultAsync F O E)
    (okFn : O → JSPromise F X) (errFn : E → JSPromise F X) : JSPromise F X :=
  a._promise.then' (fun res => res.match' okFn errFn)

/-- `ResultAsync.map` from result-async.ts lines 103 to 105:
`new ResultAsync(this._promise.then(res => res.map(fn)))`.  A fault
raised by `fn` rejects the derived promise. -/
def ResultAsync.map {F O E TOk : Type} (a : ResultAsync F O E)
    (fn : O → JSPromise F TOk) : ResultAsync F TOk E :=
  ⟨a._promise.then' (fun res => res.map fn)⟩

/-- `ResultAsync.mapErr` from result-async.ts lines 116 to 118. -/
def ResultAsync.mapErr {F O E TErr : Type} (a : ResultAsync F O E)
    (fn : E → JSPromise F TErr) : ResultAsync F O TErr :=
  ⟨a._promise.then' (fun res => res.mapErr fn)⟩

/-- The three value shapes a transformer handed to `andThen` / `orElse`
can return at run time: a promise of a `Result`, another `ResultAsync`,
or a plain `Result`. -/
inductive AndThenRet (F TOk TErr : Type) where
  | promiseR (p : JSPromise F (Result TOk TErr))
  | asyncR (a : ResultAsync F TOk TErr)
  | plainR (r : Result TOk TErr)

/-- The normalization performed on the transformer result inside
`andThen` / `orElse` (result-async.ts lines 143 to 149): the
`instanceof ResultAsync` probe unwraps `newValue._promise` directly; any
other return value is handed back to the host, whose promise resolution
chains a returned promise and fulfills with a plain (non-thenable)
`Result` as is. -/
def AndThenRet.resolve {F TOk TErr : Type} :
    AndThenRet F TOk TErr → JSPromise F (Result TOk TErr)
  | .promiseR p => p
  | .asyncR a => a._promise
  | .plainR r => .ok r

/-- `ResultAsync.andThen` from result-async.ts lines 137 to 156: on the
wrapped promise, match the resolved `Result`; on the ok branch run the
transformer and normalize its result, on the err branch resolve with the
same failure rewrapped (`Promise.resolve(errSync(error))`).  A fault
raised by the transformer rejects the derived promise. -/
def ResultAsync.andThen {F O E TOk : Type} (a : ResultAsync F O E)
    (fn : O → JSPromise F (AndThenRet F TOk E)) : ResultAsync F TOk E :=
  ⟨a._promise.then' (fun res =>
    res.match'
      (fun ok => (fn ok).then' (fun newValue => newValue.resolve))
      (fun error => .ok (Result.errSync error)))⟩

/-- `ResultAsync.orElse` from result-async.ts lines 175 to 194: the dual
of `andThen`; on the ok branch resolve with the same success rewrapped
(`Promise.resolve(okSync(ok))`), on the err branch run the transformer
and normalize its result. -/
def ResultAsync.orElse {F O E TErr : Type} (a : ResultAsync F O E)
    (fn : E → JSPromise F (AndThenRet F O TErr)) : ResultAsync F O TErr :=
  ⟨a._promise.then' (fun res =>
    res.match'
      (fun ok => .ok (Result.okSync ok))
      (fun error => (fn error).then' (fun newValue => newValue.resolve)))⟩

/-- `ResultAsync.andTee` from result-async.ts lines 206 to 208. -/
def ResultAsync.andTee {F O E C : Type} (a : ResultAsync F O E)
    (fn : O → JSPromise F C) : ResultAsync F O E :=
  ⟨a._promise.then' (fun res => res.andTee fn)⟩

/-- `ResultAsync.orTee` from result-async.ts lines 220 to 222. -/
def ResultAsync.orTee {F O E C : Type} (a : ResultAsync F O E)
    (fn : E → JSPromise F C) : ResultAsync F O E :=
  ⟨a._promise.then' (fun res => res.orTee fn)⟩

/-- `toAsync` from result-async.ts lines 237 to 239:
`new ResultAsync(Promise.resolve(result))`. -/
def toAsync {F O E : Type} (result : Result O E) : ResultAsync F O E :=
  ⟨.ok result⟩

/-- `ok` from result-async.ts lines 248 to 250:
`new ResultAsync(Promise.resolve(okSync(okValue)))`. -/
def ok {F O E : Type} (okValue : O) : ResultAsync F O E :=
  ⟨.ok (Result.okSync okValue)⟩

/-- `err` from result-async.ts lines 259 to 261:
`new ResultAsync(Promise.resolve(errSync(errorValue)))`. -/
def err {F O E : Type} (errorValue : E) : ResultAsync F O E :=
  ⟨.ok (Result.errSync errorValue)⟩

/-- The argument object of `safeTry`: the risky callable and the optional
fault translator.  The fields are named `tryFn` / `catchFn` because the
source field names are reserved words here.  The variadic argument list
is modelled by the single type `Args`. -/
structure SafeTryArgs (F Ok Err Args : Type) where
  tryFn : Args → JSPromise F Ok
  catchFn : Option (F → Err)

/-- The error type of the `ResultAsync` produced by `safeTry`: with a
translator it is the declared `Err`; without one the fault value itself
is used verbatim, so it is `F`. -/
abbrev safeTryErr (F Err : Type) : Option (F → Err) → Type
  | some _ => Err
  | none => F

/-- The body of the catch callback of `safeTry` (result-async.ts lines
281 to 286): `if (safeArgs.catch) return errSync(safeArgs.catch(error));
return errSync(error);`, factored out so the branch on the optional
translator can be given the dependent type above. -/
def applyCatch {F Err : Type} :
    (catchFn : Option (F → Err)) → F → safeTryErr F Err catchFn
  | some c, error => c error
  | none, error => error

/-- `safeTry` from result-async.ts lines 272 to 288: the adapted callable
invokes the risky callable, fulfills an ok path into `okSync`, and routes
any rejection through the catch callback into `errSync`. -/
def safeTry {F Ok Err Args : Type} (safeArgs : SafeTryArgs F Ok Err Args) :
    Args → ResultAsync F Ok (safeTryErr F Err safeArgs.catchFn) :=
  fun args =>
    ⟨((safeArgs.tryFn args).then' (fun res => .ok (Result.okSync res))).catch'
      (fun error => .ok (Result.errSync (applyCatch safeArgs.catchFn error)))⟩

/-- The observable behaviors of one invocation of an async JavaScript
function: its body may raise during the synchronous portion (before the
first suspension), its awaited completion may reject, or it completes
with a value. -/
inductive AsyncCallBehavior (F Ok : Type) where
  | syncFault (f : F)
  | asyncFault (f : F)
  | completes (v : Ok)

/-- Host semantics of invoking an async function: the call itself never
raises; a fault from either portion of the body surfaces as a rejection
of the returned promise. -/
def AsyncCallBehavior.run {F Ok : Type} : AsyncCallBehavior F Ok → JSPromise F Ok
  | .syncFault f => .error f
  | .asyncFault f => .error f
  | .completes v => .ok v

/-- `infer` from result-async.ts lines 299 to 307: the runtime
implementation returns `fn` itself unchanged; the overloads (and the
`InferOkTypes` / `InferErrTypes` helpers of sync/types.ts) exist only at
the type level. -/
def infer {TArgs TResult : Type} (fn : TArgs → TResult) : TArgs → TResult :=
  fn

/-- Claim C2: on a receiver that resolves to `Success(v)` (which, the
wrapper holding exactly one promise, is `ok v`), `andThen fn` resolves to
exactly the Outcome the transformer result eventually produces, for all
three result shapes at once (first conjunct, `AndThenRet.resolve`); a
returned `ResultAsync` has its inner promise chained directly (second
conjunct); the failure payload after chaining into `err e'` is exactly
`e'` (third conjunct); and the chain `10` to `20` to `25` of the spec
computes (last two conjuncts). -/
theorem andThen_success_chains {F O E TOk : Type} (v : O)
    (fn : O → AndThenRet F TOk E) (b : ResultAsync F TOk E) (e' : E) :
    ((ok v : ResultAsync F O E).andThen (fun x => .ok (fn x)))._promise
        = (fn v).resolve
    ∧ ((ok v : ResultAsync F O E).andThen
        (fun _ => .ok (AndThenRet.asyncR b)))._promise = b._promise
    ∧ ((ok v : ResultAsync F O E).andThen
        (fun _ => .ok (AndThenRet.asyncR (err e' : ResultAsync F TOk E))))._promise
        = .ok (Result.errSync e')
    ∧ ((ok 10 : ResultAsync F Nat E).andThen
        (fun x => .ok (AndThenRet.asyncR (ok (x * 2)))))._promise
        = .ok (Result.okSync 20)
    ∧ (((ok 10 : ResultAsync F Nat E).andThen
        (fun x => .ok (AndThenRet.asyncR (ok (x * 2))))).andThen
        (fun x => .ok (AndThenRet.asyncR (ok (x + 5)))))._promise
        = .ok (Result.okSync 25) :=
  ⟨rfl, rfl, rfl, rfl, rfl⟩

/-- Claim C3: short-circuiting is decided by the variant of the receiver
alone.  `err e` composed with `andThen` yields a value independent of the
transformer (so the transformer is never invoked) and resolves to a
Failure carrying the same payload `e`; dually `ok v` composed with
`orElse` is independent of the transformer and resolves to a Success
carrying the same payload `v`. -/
theorem short_circuit_by_receiver_variant {F O E TOk TErr : Type} (e : E) (v : O)
    (f g : O → JSPromise F (AndThenRet F TOk E))
    (p q : E → JSPromise F (AndThenRet F O TErr)) :
    (err e : ResultAsync F O E).andThen f = (err e).andThen g
    ∧ ((err e : ResultAsync F O E).andThen f)._promise = .ok (Result.errSync e)
    ∧ (ok v : ResultAsync F O E).orElse p = (ok v).orElse q
    ∧ ((ok v : ResultAsync F O E).orElse p)._promise = .ok (Result.okSync v) :=
  ⟨rfl, rfl, rfl, rfl⟩

/-- Claim C5: `unwrap` on the async wrapper keeps the sync/async
asymmetry.  `ok v |>.unwrap` is a deferred value fulfilled with `v`;
`err e |>.unwrap` does not raise (it is a returned deferred value, the
total function `ResultAsync.unwrap`) but that deferred value rejects with
the terminal-unwrap fault carrying `e` (the right summand of the
rejection channel). -/
theorem unwrap_async_asymmetry {F O E : Type} (v : O) (e : E) :
    (ok v : ResultAsync F O E).unwrap = .ok v
    ∧ (err e : ResultAsync F O E).unwrap = .error (Sum.inr e) :=
  ⟨rfl, rfl⟩

/-- Claim C9: the runtime content of the type-inference helpers is the
identity: `infer fn` is `fn` itself, so applying it is the same call with
the identical result. -/
theorem infer_is_identity {TArgs TResult : Type} (fn : TArgs → TResult)
    (args : TArgs) :
    infer fn = fn ∧ infer fn args = fn args :=
  ⟨rfl, rfl⟩

/-- Claim C10: a `ResultAsync` is directly awaitable: its `then` delegates
both callbacks to the wrapped promise, and awaiting a wrapper built from
`ok v` or `err e` fulfills with the underlying Outcome value itself
(`okSync v`, `errSync e`) — the declared-failure path fulfills, it does
not reject. -/
theorem then_delegates_to_wrapped_promise {F O E X : Type} (a : ResultAsync F O E)
    (okFn : Result O E → JSPromise F X) (errFn : F → JSPromise F X)
    (v : O) (e : E) :
    a.then' okFn errFn = a._promise.then2 okFn errFn
    ∧ (ok v : ResultAsync F O E).awaited = .ok (Result.okSync v)
    ∧ (err e : ResultAsync F O E).awaited = .ok (Result.errSync e) :=
  ⟨rfl, rfl, rfl⟩

/-- Claim C1: the safe-call adapter never re-raises.  For every risky
callable and every argument, the promise wrapped by the adapted callable
is fulfilled (first conjunct, so it neither raises nor rejects).  For a
callable whose body faults during its synchronous portion and one whose
awaited completion rejects with the same fault, the adapted callable
yields the very same value (second conjunct), namely a Failure whose
payload went through the one translation step `applyCatch` (third
conjunct): both fault sources are caught and funneled identically. -/
theorem safeTry_never_reraises {F Ok Err Args : Type}
    (safeArgs : SafeTryArgs F Ok Err Args) (args : Args)
    (catchFn : Option (F → Err)) (f : F) :
    (∃ r, (safeTry safeArgs args)._promise = .ok r)
    ∧ (safeTry ⟨fun _ => ((AsyncCallBehavior.syncFault f : AsyncCallBehavior F Ok).run), catchFn⟩ args)._promise
        = (safeTry ⟨fun _ => ((AsyncCallBehavior.asyncFault f : AsyncCallBehavior F Ok).run), catchFn⟩ args)._promise
    ∧ (safeTry ⟨fun _ => ((AsyncCallBehavior.syncFault f : AsyncCallBehavior F Ok).run), catchFn⟩ args)._promise
        = .ok (Result.errSync (applyCatch catchFn f)) := by
  refine ⟨?_, rfl, rfl⟩
  cases h : safeArgs.tryFn args with
  | ok x =>
    exact ⟨Result.okSync x, by simp [safeTry, Except.then', Except.catch', h]⟩
  | error f' =>
    exact ⟨Result.errSync (applyCatch safeArgs.catchFn f'),
      by simp [safeTry, Except.then', Except.catch', h]⟩

/-- Claim C4: the three outcomes of the adapted callable.  If the risky
callable fulfills with `x`, the adapted callable yields `okSync x`
(with or without a translator); if it rejects with fault `f` and a
translator `c` was supplied, the Failure payload is exactly `c f`; with
no translator the payload is the fault `f` verbatim. -/
theorem safeTry_outcomes {F Ok Err Args : Type}
    (t1 t2 : Args → JSPromise F Ok) (c : F → Err) (args : Args)
    (x : Ok) (f : F)
    (h1 : t1 args = .ok x) (h2 : t2 args = .error f) :
    (safeTry ⟨t1, some c⟩ args)._promise = .ok (Result.okSync x)
    ∧ (safeTry ⟨t1, (none : Option (F → Err))⟩ args)._promise = .ok (Result.okSync x)
    ∧ (safeTry ⟨t2, some c⟩ args)._promise = .ok (Result.errSync (c f))
    ∧ (safeTry ⟨t2, (none : Option (F → Err))⟩ args)._promise = .ok (Result.errSync f) := by
  refine ⟨?_, ?_, ?_, ?_⟩ <;>
    simp [safeTry, Except.then', Except.catch', h1, h2, applyCatch]

/-- Witness for C4 at a concrete callable: completing with `42` yields
`okSync 42`; rejecting with fault `7` yields `errSync 8` through the
translator `f + 1` and `errSync 7` verbatim without one. -/
theorem safeTry_outcomes_witness :
    (safeTry ⟨fun _ : Unit => (.ok 42 : JSPromise Nat Nat), some (fun f => f + 1)⟩ ())._promise
        = .ok (Result.okSync 42)
    ∧ (safeTry ⟨fun _ : Unit => (.ok 42 : JSPromise Nat Nat), (none : Option (Nat → Nat))⟩ ())._promise
        = .ok (Result.okSync 42)
    ∧ (safeTry ⟨fun _ : Unit => (.error 7 : JSPromise Nat Nat), some (fun f => f + 1)⟩ ())._promise
        = .ok (Result.errSync (7 + 1))
    ∧ (safeTry ⟨fun _ : Unit => (.error 7 : JSPromise Nat Nat), (none : Option (Nat → Nat))⟩ ())._promise
        = .ok (Result.errSync 7) :=
  safeTry_outcomes (fun _ : Unit => (.ok 42 : JSPromise Nat Nat))
    (fun _ => (.error 7 : JSPromise Nat Nat)) (fun f => f + 1) () 42 7 rfl rfl

/-- Claim C6: a fault raised by a transformer is never swallowed.  On a
receiver whose variant makes the transformer run (`ok v` for `map` and
`andThen`, `err e` for `orElse`), if the transformer raises fault `f`
the derived promise rejects with exactly `f`; it is not turned into a
Failure outcome. -/
theorem transformer_fault_propagates {F O E TOk TErr : Type} (v : O) (e : E)
    (f : F) (fnm : O → JSPromise F TOk)
    (fna : O → JSPromise F (AndThenRet F TOk E))
    (fno : E → JSPromise F (AndThenRet F O TErr))
    (h1 : fnm v = .error f) (h2 : fna v = .error f) (h3 : fno e = .error f) :
    ((ok v : ResultAsync F O E).map fnm)._promise = .error f
    ∧ ((ok v : ResultAsync F O E).andThen fna)._promise = .error f
    ∧ ((err e : ResultAsync F O E).orElse fno)._promise = .error f := by
  refine ⟨?_, ?_, ?_⟩ <;>
    simp [ResultAsync.map, ResultAsync.andThen, ResultAsync.orElse, ok, err,
      Result.map, Result.match', Except.then', h1, h2, h3]

/-- Witness for C6 at concrete transformers that raise fault `7` on the
payload they receive. -/
theorem transformer_fault_propagates_witness :
    ((ok 0 : ResultAsync Nat Nat Nat).map
        (fun _ => (.error 7 : JSPromise Nat Nat)))._promise = .error 7
    ∧ ((ok 0 : ResultAsync Nat Nat Nat).andThen
        (fun _ => (.error 7 : JSPromise Nat (AndThenRet Nat Nat Nat))))._promise = .error 7
    ∧ ((err 0 : ResultAsync Nat Nat Nat).orElse
        (fun _ => (.error 7 : JSPromise Nat (AndThenRet Nat Nat Nat))))._promise = .error 7 :=
  transformer_fault_propagates 0 0 7 (fun _ => .error 7) (fun _ => .error 7)
    (fun _ => .error 7) rfl rfl rfl

/-- Claim C7: lifting is faithful.  `toAsync res` wraps a promise already
fulfilled with `res` itself (first conjunct); a synchronous `map`,
`andThen` or `orElse` step performed through the async operators (the
transformer lifted with `toAsync`) resolves to exactly the value the
synchronous operator produces (middle conjuncts); and the concrete chain
of the spec, `toAsync(success(10))` chained into doubling and resolved
with `unwrap`, fulfills with `20` (last conjunct). -/
theorem toAsync_faithful {F O E TOk TErr : Type} (r : Result O E)
    (g : O → TOk) (fn : O → Result TOk E) (fo : E → Result O TErr) :
    (toAsync r : ResultAsync F O E)._promise = .ok r
    ∧ ((toAsync r : ResultAsync F O E).map (fun x => .ok (g x)))._promise
        = Result.map r (fun x => .ok (g x))
    ∧ ((toAsync r : ResultAsync F O E).andThen
        (fun x => .ok (AndThenRet.asyncR (toAsync (fn x)))))._promise
        = Result.andThen r (fun x => .ok (fn x))
    ∧ ((toAsync r : ResultAsync F O E).orElse
        (fun x => .ok (AndThenRet.asyncR (toAsync (fo x)))))._promise
        = Result.orElse r (fun x => .ok (fo x))
    ∧ ((toAsync (Result.okSync 10) : ResultAsync F Nat E).andThen
        (fun x => .ok (AndThenRet.asyncR (ok (x * 2))))).unwrap = .ok 20 := by
  refine ⟨rfl, ?_, ?_, ?_, rfl⟩ <;> cases r <;> rfl

/-- Claim C8: every operator returns a new wrapper (a constructor
application) whose promise is derived from the promise of the receiver
through `then` (the six derivation equations), and the receiver itself
is fully determined by that untouched promise: every consumer applied to
the receiver yields exactly what it yields on a fresh wrapper of the
same promise (the consumer equations), so building derived values leaves
every observation of the receiver as it was.  Mutation is not
representable in this value-level embedding; distinctness of the new
wrapper as a heap object is a reference-semantics fact outside it. -/
theorem operators_derive_receiver_promise {F O E TOk TErr C D X : Type}
    (a : ResultAsync F O E)
    (fnm : O → JSPromise F TOk) (fne : E → JSPromise F TErr)
    (fna : O → JSPromise F (AndThenRet F TOk E))
    (fno : E → JSPromise F (AndThenRet F O TErr))
    (fnt : O → JSPromise F C) (fnu : E → JSPromise F D)
    (okFn : Result O E → JSPromise F X) (errFn : F → JSPromise F X)
    (mo : O → JSPromise F X) (me : E → JSPromise F X) (v : O) :
    (a.map fnm)._promise = a._promise.then' (fun res => res.map fnm)
    ∧ (a.mapErr fne)._promise = a._promise.then' (fun res => res.mapErr fne)
    ∧ (a.andThen fna)._promise = a._promise.then' (fun res =>
        res.match' (fun o => (fna o).then' AndThenRet.resolve)
          (fun e => .ok (Result.errSync e)))
    ∧ (a.orElse fno)._promise = a._promise.then' (fun res =>
        res.match' (fun o => .ok (Result.okSync o))
          (fun e => (fno e).then' AndThenRet.resolve))
    ∧ (a.andTee fnt)._promise = a._promise.then' (fun res => res.andTee fnt)
    ∧ (a.orTee fnu)._promise = a._promise.then' (fun res => res.orTee fnu)
    ∧ a.then' okFn errFn = ResultAsync.then' ⟨a._promise⟩ okFn errFn
    ∧ a.match' mo me = ResultAsync.match' ⟨a._promise⟩ mo me
    ∧ a.unwrap = ResultAsync.unwrap ⟨a._promise⟩
    ∧ a.unwrapOr v = ResultAsync.unwrapOr ⟨a._promise⟩ v
    ∧ a.isOk = ResultAsync.isOk ⟨a._promise⟩
    ∧ a.isErr = ResultAsync.isErr ⟨a._promise⟩ :=
  ⟨rfl, rfl, rfl, rfl, rfl, rfl, rfl, rfl, rfl, rfl, rfl, rfl⟩

end Kanzen
